import Mathlib

/-!
# Verification of the meeting_summarizer repository

A shallow embedding in Lean 4 of the pure logic of `src/app.py` and
`src/slack.py`:

* Python string operations used by the code (`strip`, `lower`, `startswith`,
  split on newline) are modelled over `List Char` / `String`;
* the action-item parsing loop of
  `MeetingSummarizer.generate_summary_and_actions` (app.py lines 179-186);
* the DOCX assembly of `MeetingSummarizer.create_docx` (app.py lines 195-225);
* the temporary-file life cycle of
  `MeetingSummarizer.extract_audio_from_video` (app.py lines 84-121),
  with the file system as an explicit list of live temp paths;
* `send_to_slack`, `validate_webhook_url` of slack.py, with the network
  modelled by an explicit `PostOutcome` oracle and Python exceptions as
  `Except` values.

Each theorem below corresponds to one behavioural claim about the code.
-/

namespace MeetingSummarizer

/-! ## Python string primitives -/

/-- The whitespace characters removed by Python `str.strip()` (ASCII range;
the code only ever strips spaces, tabs, newlines and carriage returns). -/
def isPyWhitespace (c : Char) : Bool :=
  c = ' ' || c = '\t' || c = '\n' || c = '\r' || c = '\x0b' || c = '\x0c'

/-- Python strip on a character list: drop leading and trailing whitespace. -/
def pyStripList (l : List Char) : List Char :=
  ((l.dropWhile isPyWhitespace).reverse.dropWhile isPyWhitespace).reverse

/-- Python `str.strip()`. -/
def pyStrip (s : String) : String :=
  ⟨pyStripList s.data⟩

/-- Python `str.lower()` (ASCII case folding, which is all the code relies
on: the guard compares against the two ASCII letters no). -/
def pyLower (s : String) : String :=
  ⟨s.data.map Char.toLower⟩

/-- Python `s.startswith(pre)`. -/
def pyStartsWith (s pre : String) : Bool :=
  pre.data.isPrefixOf s.data

/-- Python split on newline over a character list: split at every newline, keeping
empty pieces (so the result is always non-empty). -/
def splitLinesList : List Char → List (List Char)
  | [] => [[]]
  | c :: rest =>
    match splitLinesList rest, decide (c = '\n') with
    | r, true => [] :: r
    | [], false => [[c]]
    | first :: others, false => (c :: first) :: others

/-- Python split of a string at every newline character. -/
def pySplitLines (s : String) : List String :=
  (splitLinesList s.data).map fun l => ⟨l⟩

/-! ## slack.py -/

/-- The fixed literal prefix checked by slack.py. -/
def slackHookBase : String := "https://hooks.slack.com/"

/-- Model of `validate_webhook_url` (slack.py lines 109-125): non-empty, starts with
the fixed prefix, and is strictly longer than 50 characters. -/
def validate_webhook_url (webhook_url : String) : Bool :=
  if webhook_url = "" then false
  else pyStartsWith webhook_url slackHookBase && decide (webhook_url.length > 50)

/-- The possible outcomes of the single `requests.post` call in
`send_to_slack`: an HTTP response with a status code, or one of the
exceptions `requests` can raise. -/
inductive PostOutcome
  | status (code : Nat)
  | timeout
  | connectionError
  | otherError
  deriving DecidableEq, Repr

/-- Python exceptions that can escape the `try` body of `send_to_slack`. -/
inductive PyExc
  | timeout
  | connectionError
  | other
  deriving DecidableEq, Repr

/-- Model of `requests.post` under the oracle: a status outcome yields the status
code; the exceptional outcomes raise. -/
def requests_post (outcome : PostOutcome) : Except PyExc Nat :=
  match outcome with
  | .status code => .ok code
  | .timeout => .error .timeout
  | .connectionError => .error .connectionError
  | .otherError => .error .other

/-- The `try` body of `send_to_slack` (slack.py lines 20-97).
Returns the result of the body (with any raised exception as `.error`)
paired with the number of network calls made. -/
def send_to_slack_body (summary action_items webhook_url : String)
    (outcome : PostOutcome) : Except PyExc Bool × Nat :=
  if webhook_url = "" || !(pyStartsWith webhook_url slackHookBase) then
    (.ok false, 0)
  else if pyStrip summary = "" && pyStrip action_items = "" then
    (.ok false, 0)
  else
    match requests_post outcome with
    | .ok code => (.ok (code = 200 : Bool), 1)
    | .error e => (.error e, 1)

/-- Model of `send_to_slack` (slack.py lines 8-107): the `try` body with the three
`except` handlers (Timeout, ConnectionError, bare Exception), each of
which returns `False`.  The first component is the value returned to the
caller (always `.ok` after handling); the second is the number of network
calls made. -/
def send_to_slack (summary action_items webhook_url : String)
    (outcome : PostOutcome) : Except PyExc Bool × Nat :=
  match send_to_slack_body summary action_items webhook_url outcome with
  | (.ok b, n) => (.ok b, n)
  | (.error _, n) => (.ok false, n)

/-! ## app.py: action-item parsing (lines 179-186) -/

/-- One iteration of the parsing loop (app.py lines 181-186): strip the
line; keep it if it starts with `-`, `•` or `*`; otherwise, if it is the
first collected item and does not start (case-insensitively) with `no`,
keep it with a `- ` prefix; otherwise drop it. -/
def parse_step (action_items : List String) (rawLine : String) : List String :=
  let line := pyStrip rawLine
  if line ≠ "" && (pyStartsWith line "-" || pyStartsWith line "•" || pyStartsWith line "*") then
    action_items ++ [line]
  else if line ≠ "" && action_items.length = 0 && !(pyStartsWith (pyLower line) "no") then
    action_items ++ ["- " ++ line]
  else
    action_items

/-- The parsing loop over a line list. -/
def parse_action_items_lines (lines : List String) : List String :=
  lines.foldl parse_step []

/-- The action-item parser of `generate_summary_and_actions`
(app.py lines 179-186), applied to the response text of the model. -/
def parse_action_items (action_text : String) : List String :=
  parse_action_items_lines (pySplitLines action_text)

/-! ## app.py: generate_summary_and_actions (lines 155-193) -/

/-- Model of `generate_summary_and_actions` (app.py lines 155-193), with the two
Gemini `generate_content` responses supplied as oracle strings.  Returns
`(summary, action_items)` or the raised error message, paired with the
number of generation requests issued to the model. -/
def generate_summary_and_actions (transcript : String)
    (summaryResp actionResp : String) :
    Except String (String × List String) × Nat :=
  if pyStrip transcript = "" then
    (.error "Transcript is empty", 0)
  else
    let summary := pyStrip summaryResp
    let action_text := pyStrip actionResp
    (.ok (summary, parse_action_items action_text), 2)

/-! ## app.py: create_docx (lines 195-225) -/

/-- A block of the generated DOCX document. -/
inductive DocBlock
  | heading (level : Nat) (text : String)
  | para (text : String)
  | bullet (text : String)
  deriving DecidableEq, Repr

/-- The visual separator paragraph: `"─" * 50`. -/
def sepLine : String := ⟨List.replicate 50 '─'⟩

/-- Model of `create_docx` (app.py lines 195-225) as the sequence of blocks added to
the document, with the generation timestamp supplied as a parameter. -/
def create_docx (transcript summary : String) (action_items : List String)
    (timestamp : String) : List DocBlock :=
  let doc : List DocBlock := []
  let doc := doc ++ [.heading 0 "Meeting Summary Report"]
  let doc := doc ++ [.para ("Generated: " ++ timestamp)]
  let doc := doc ++ [.para sepLine]
  let doc := doc ++ [.heading 1 "Executive Summary"]
  let doc := doc ++ [.para summary]
  let doc :=
    if action_items.isEmpty then doc
    else
      action_items.foldl (fun d item => d ++ [.bullet item])
        (doc ++ [.heading 1 "Action Items"])
  let doc := doc ++ [.heading 1 "Full Transcript"]
  doc ++ [.para transcript]

/-! ## app.py: extract_audio_from_video (lines 84-121) -/

/-- The relevant observable facts about a video input: whether its clip has
an audio stream, and the byte size of the audio file written for it. -/
structure VideoInput where
  hasAudio : Bool
  extractedSize : Nat
  deriving Repr

/-- Name of the video temp file created by `tempfile.NamedTemporaryFile`. -/
def tmpVideoPath : String := "tmp_video.mp4"

/-- Name of the audio temp file created by `tempfile.NamedTemporaryFile`. -/
def tmpAudioPath : String := "tmp_audio.wav"

/-- The cleanup loop of the `except` branch (app.py lines 118-120): for each
of the two temp paths, unlink it if it exists (the locals-membership test
there is always true inside the loop, since `path` is the loop variable). -/
def cleanupTempFiles (fs : List String) : List String :=
  [tmpVideoPath, tmpAudioPath].foldl
    (fun live path => if path ∈ live then live.erase path else live) fs

/-- Model of `extract_audio_from_video` (app.py lines 84-121).  The file system is
the list of live temp files, starting empty; the function creates the two
temp files, then either raises (running the cleanup loop before
propagating) or returns both paths.  Result: the returned pair or the
raised error message, together with the temp files still on disk. -/
def extract_audio_from_video (inp : VideoInput) :
    Except String (String × String) × List String :=
  let fs := ([] : List String) ++ [tmpVideoPath]
  let fs := fs ++ [tmpAudioPath]
  if !inp.hasAudio then
    (.error "No audio track found in video file", cleanupTempFiles fs)
  else if inp.extractedSize = 0 then
    (.error "Failed to extract audio from video", cleanupTempFiles fs)
  else
    (.ok (tmpVideoPath, tmpAudioPath), fs)

/-! ## The parser as the spec describes it, for comparison -/

/-- Whether a line begins with the *word* `no`, case-insensitively: its
first two letters are `n`, `o` and they are not followed by a further
letter.  This follows the wording of the spec: the line does not begin
with the word no, case-insensitively. -/
def beginsWithWordNo (line : String) : Bool :=
  match (pyLower line).data with
  | 'n' :: 'o' :: [] => true
  | 'n' :: 'o' :: c :: _ => !c.isAlpha
  | _ => false

/-- One parsing step as the spec describes it: a non-blank line starting
with a bullet glyph is kept as-is; a non-blank unbulleted line is kept with
a `- ` prefix exactly when nothing has been collected yet and the line does
not begin with the word `no`; every other line is dropped. -/
def parse_step_spec (collected : List String) (rawLine : String) : List String :=
  let line := pyStrip rawLine
  if line ≠ "" && (pyStartsWith line "-" || pyStartsWith line "•" || pyStartsWith line "*") then
    collected ++ [line]
  else if line ≠ "" && collected.isEmpty && !beginsWithWordNo line then
    collected ++ ["- " ++ line]
  else
    collected

/-- The parser as the spec describes it, line by line in order. -/
def parse_action_items_spec (text : String) : List String :=
  (pySplitLines text).foldl parse_step_spec []

/-- One parsing step as amended: identical to `parse_step_spec` except
that the guard is the *two-character* test the code performs — the line,
lowercased, does not start with the two letters `no` — rather than a
word-boundary test. -/
def parse_step_amended (collected : List String) (rawLine : String) : List String :=
  let line := pyStrip rawLine
  if line ≠ "" && (pyStartsWith line "-" || pyStartsWith line "•" || pyStartsWith line "*") then
    collected ++ [line]
  else if line ≠ "" && collected.isEmpty && !(pyStartsWith (pyLower line) "no") then
    collected ++ ["- " ++ line]
  else
    collected

/-- The parser as the amended claim describes it. -/
def parse_action_items_amended (text : String) : List String :=
  (pySplitLines text).foldl parse_step_amended []

/-- A string starting with one of the three bullet glyphs. -/
def startsWithBullet (s : String) : Bool :=
  pyStartsWith s "-" || pyStartsWith s "•" || pyStartsWith s "*"

/-! ## Helper lemmas -/

theorem foldl_bullet_append (items : List String) (init : List DocBlock) :
    items.foldl (fun d item => d ++ [DocBlock.bullet item]) init =
      init ++ items.map DocBlock.bullet := by
  induction items generalizing init with
  | nil => simp
  | cons x xs ih => simp [List.foldl_cons, ih]

theorem startsWithBullet_dash (s : String) :
    startsWithBullet ("- " ++ s) = true := by
  unfold startsWithBullet pyStartsWith
  simp [String.data_append, List.isPrefixOf]

theorem parse_step_bullet_invariant (acc : List String) (l : String)
    (h : ∀ x ∈ acc, startsWithBullet x = true) :
    ∀ x ∈ parse_step acc l, startsWithBullet x = true := by
  intro x hx
  unfold parse_step at hx
  dsimp only at hx
  split at hx
  case isTrue hcond =>
    rcases List.mem_append.mp hx with h1 | h1
    · exact h x h1
    · rcases List.mem_singleton.mp h1 with rfl
      simp only [Bool.and_eq_true] at hcond
      exact hcond.2
  case isFalse =>
    split at hx
    case isTrue =>
      rcases List.mem_append.mp hx with h1 | h1
      · exact h x h1
      · rcases List.mem_singleton.mp h1 with rfl
        exact startsWithBullet_dash _
    case isFalse => exact h x hx

theorem parse_lines_bullet_invariant (lines : List String) (acc : List String)
    (h : ∀ x ∈ acc, startsWithBullet x = true) :
    ∀ x ∈ lines.foldl parse_step acc, startsWithBullet x = true := by
  induction lines generalizing acc with
  | nil => simpa using h
  | cons l ls ih =>
    intro x hx
    rw [List.foldl_cons] at hx
    exact ih _ (parse_step_bullet_invariant acc l h) x hx

/-! ## Claims -/

/-- C1 (counterexample): the webhook URL `https://hooks.slack.com/abc`
does not satisfy the claimed combined check (it begins with the literal
but has only 27 characters, not more than 50), yet `send_to_slack` does
not return failure without a network call: it makes one POST and, on
HTTP 200, returns success.  The length check lives only in
`validate_webhook_url`, which `send_to_slack` never invokes. -/
theorem send_to_slack_short_url_reaches_network :
    ¬ (pyStartsWith "https://hooks.slack.com/abc" slackHookBase = true ∧
        ("https://hooks.slack.com/abc" : String).length > 50) ∧
    send_to_slack "s" "" "https://hooks.slack.com/abc" (.status 200) =
      (Except.ok true, 1) :=
  ⟨by decide, by rfl⟩

/-- C1 (amended): for every webhook URL that is empty or does not begin
with the literal `https://hooks.slack.com/`, `send_to_slack` returns
failure without making any network call. -/
theorem send_to_slack_bad_url_fails_without_network
    (summary action_items url : String) (o : PostOutcome)
    (h : url = "" ∨ pyStartsWith url slackHookBase = false) :
    send_to_slack summary action_items url o = (Except.ok false, 0) := by
  have hcond : (decide (url = "") || !pyStartsWith url slackHookBase) = true := by
    rcases h with h | h <;> simp [h]
  unfold send_to_slack send_to_slack_body
  rw [if_pos hcond]

/-- Witness for the amended C1 theorem at the URL `http://x`. -/
theorem send_to_slack_bad_url_fails_without_network_witness :
    send_to_slack "s" "a" "http://x" (.status 200) = (Except.ok false, 0) :=
  send_to_slack_bad_url_fails_without_network "s" "a" "http://x" (.status 200)
    (Or.inr (by decide))

/-- C2 (counterexample): on the single-line response `Notify the client`,
the parser of the code drops the line (its lowercase form starts with the two
letters `no`), while the description in the spec — which only excludes lines
beginning with the *word* `no` — keeps it as `- Notify the client`. -/
theorem parse_action_items_notify_mismatch :
    parse_action_items "Notify the client" = [] ∧
    parse_action_items_spec "Notify the client" = ["- Notify the client"] ∧
    parse_action_items "Notify the client" ≠
      parse_action_items_spec "Notify the client" :=
  ⟨by decide, by decide, by decide⟩

/-- C2 (amended): the parser keeps a non-blank bulleted line as-is and
keeps a non-blank unbulleted line with a `- ` prefix exactly when no item
has been collected yet and the lowercase form of the line does not start with
the two letters `no`; all other lines are dropped. -/
theorem parse_action_items_eq_amended (text : String) :
    parse_action_items text = parse_action_items_amended text := by
  have hstep : parse_step = parse_step_amended := by
    funext acc l
    unfold parse_step parse_step_amended
    cases acc <;> simp [List.isEmpty]
  unfold parse_action_items parse_action_items_lines parse_action_items_amended
  rw [hstep]

/-- C3: on a video input whose clip has no audio stream,
`extract_audio_from_video` raises the no-audio-track error and the
`except` branch removes both temporary files before propagating,
leaving zero temporary files behind. -/
theorem extract_audio_no_audio_cleans_up (inp : VideoInput)
    (h : inp.hasAudio = false) :
    extract_audio_from_video inp =
      (Except.error "No audio track found in video file", []) := by
  obtain ⟨ha, sz⟩ := inp
  simp only at h
  subst h
  rfl

/-- Witness for C3 at a concrete audio-less input. -/
theorem extract_audio_no_audio_cleans_up_witness :
    extract_audio_from_video ⟨false, 7⟩ =
      (Except.error "No audio track found in video file", []) :=
  extract_audio_no_audio_cleans_up ⟨false, 7⟩ rfl

/-- C4: on a transcript made only of whitespace (or empty),
`generate_summary_and_actions` fails with the empty-transcript error
and issues zero generation requests to the model. -/
theorem generate_blank_transcript_fails_without_request
    (transcript summaryResp actionResp : String)
    (h : ∀ c ∈ transcript.data, isPyWhitespace c = true) :
    generate_summary_and_actions transcript summaryResp actionResp =
      (Except.error "Transcript is empty", 0) := by
  have h1 : transcript.data.dropWhile isPyWhitespace = [] :=
    List.dropWhile_eq_nil_iff.mpr h
  have hstrip : pyStrip transcript = "" := by
    unfold pyStrip pyStripList
    rw [h1]
    rfl
  unfold generate_summary_and_actions
  rw [if_pos hstrip]

/-- Witness for C4 at a whitespace-only transcript. -/
theorem generate_blank_transcript_fails_without_request_witness :
    generate_summary_and_actions " \t\n " "sum" "act" =
      (Except.error "Transcript is empty", 0) :=
  generate_blank_transcript_fails_without_request " \t\n " "sum" "act" (by decide)

/-- C5: parsing the model response
`No action items identified in this meeting` yields an empty
action-item list. -/
theorem parse_no_action_items_yields_empty :
    parse_action_items "No action items identified in this meeting" = [] := by
  decide

/-- C6: parsing the two-line response bullet-prefixes the first unbulleted
line and keeps the already-bulleted line unchanged, in order. -/
theorem parse_two_line_example :
    parse_action_items "Follow up with client\n- Send contract by Friday" =
      ["- Follow up with client", "- Send contract by Friday"] := by
  decide

/-- C7: whenever `send_to_slack` reaches the POST (valid prefix and
non-blank content), it makes exactly one network call — no retry — and
returns success exactly when the outcome is an HTTP 200 response; any
other status, timeout, connection failure, or other request exception
yields failure. -/
theorem send_to_slack_posted_result (summary action_items url : String)
    (o : PostOutcome)
    (hurl : pyStartsWith url slackHookBase = true)
    (hcontent : pyStrip summary ≠ "" ∨ pyStrip action_items ≠ "") :
    send_to_slack summary action_items url o =
      (Except.ok (decide (o = .status 200)), 1) := by
  have hne : decide (url = "") = false := by
    apply decide_eq_false
    intro he
    rw [he] at hurl
    exact absurd hurl (by decide)
  have hc2 : (decide (pyStrip summary = "") &&
      decide (pyStrip action_items = "")) = false := by
    rcases hcontent with h | h <;> simp [h]
  unfold send_to_slack send_to_slack_body requests_post
  rw [hne, hurl]
  simp only [Bool.not_true, Bool.or_false]
  rw [if_neg (by simp), if_neg (by simp [hc2])]
  cases o with
  | status code => simp
  | timeout => rfl
  | connectionError => rfl
  | otherError => rfl

/-- Witness for C7 at a valid URL with a timeout outcome. -/
theorem send_to_slack_posted_result_witness :
    send_to_slack "s" "" "https://hooks.slack.com/services/T0/B0/X" .timeout =
      (Except.ok false, 1) :=
  send_to_slack_posted_result "s" "" "https://hooks.slack.com/services/T0/B0/X"
    .timeout (by decide) (Or.inl (by decide))

/-- C8: the assembled document is, in order: the title heading, the
generation timestamp, the separator, the Executive Summary section with
the summary verbatim, the Action Items section with one bulleted entry
per item — omitted entirely (heading included) when the item list is
empty — and the Full Transcript section with the transcript verbatim. -/
theorem create_docx_structure (transcript summary : String)
    (items : List String) (ts : String) :
    create_docx transcript summary items ts =
      [DocBlock.heading 0 "Meeting Summary Report",
       DocBlock.para ("Generated: " ++ ts),
       DocBlock.para sepLine,
       DocBlock.heading 1 "Executive Summary",
       DocBlock.para summary]
      ++ (if items.isEmpty then []
          else DocBlock.heading 1 "Action Items" :: items.map DocBlock.bullet)
      ++ [DocBlock.heading 1 "Full Transcript", DocBlock.para transcript] := by
  unfold create_docx
  cases items with
  | nil => rfl
  | cons x xs => simp [foldl_bullet_append]

/-- C9: every element of the parsed action-item list begins with one of
the bullet glyphs `-`, `•`, `*`. -/
theorem parse_action_items_all_bulleted (text item : String)
    (h : item ∈ parse_action_items text) :
    startsWithBullet item = true :=
  parse_lines_bullet_invariant _ [] (by simp) item h

/-- Witness for C9: the auto-bulleted item parsed from `Call Bob`. -/
theorem parse_action_items_all_bulleted_witness :
    startsWithBullet "- Call Bob" = true :=
  parse_action_items_all_bulleted "Call Bob" "- Call Bob" (by decide)

/-- C10: `send_to_slack` is total on every input and POST outcome: it
returns the boolean `True` or `False`, never propagating an exception —
the handlers map every raised request exception to `False`. -/
theorem send_to_slack_total (summary action_items url : String)
    (o : PostOutcome) :
    (send_to_slack summary action_items url o).1 = Except.ok true ∨
    (send_to_slack summary action_items url o).1 = Except.ok false := by
  rcases hb : send_to_slack_body summary action_items url o with ⟨r, n⟩
  unfold send_to_slack
  rw [hb]
  cases r with
  | ok b => cases b
            · exact Or.inr rfl
            · exact Or.inl rfl
  | error e => exact Or.inr rfl

end MeetingSummarizer
